import Mathlib

/-!
Verification model of the coqide.vim plugin (Python sources under
`autoload/python/coqide/`).  Each definition is a shallow embedding of the
correspondingly named Python function or class; the theorems at the end of
the file settle the frozen claims about the plugin.

Modules covered:
* `xmlprotocol.py` — the XML wire codec (`_data_to_xml`, `_data_from_xml`,
  feedback deserialization `Feedback.from_xml`);
* `types.py` — `Mark` and its lexicographic order;
* `sentence.py` — `Sentence` flag/highlight transitions;
* `stm.py` — the document state machine: `_forward_one`, `forward_many`,
  `_backward_before_index`, `_update_goal`, `_make_on_lost_cb`, and the
  sequential task thread, modelled as a sequential task runner;
* `coqtopinstance.py` — `CoqtopInstance.spawn`.
-/

namespace Coqide

/-! ## XML documents

A model of the fragment of `xml.etree.ElementTree` used by the codec: an
element has a tag, attributes, children and optional text.  Tail text is not
modelled: the encoders never produce it and no claim observes it. -/

inductive Xml where
  | elem (tag : String) (attrs : List (String × String)) (children : List Xml)
      (text : Option String)

def Xml.tag : Xml → String
  | .elem t _ _ _ => t

def Xml.attrs : Xml → List (String × String)
  | .elem _ a _ _ => a

def Xml.children : Xml → List Xml
  | .elem _ _ c _ => c

def Xml.text : Xml → Option String
  | .elem _ _ _ t => t

/-- Attribute lookup, `element.attrib[key]` (`none` models a `KeyError`). -/
def Xml.getAttr (x : Xml) (key : String) : Option String :=
  x.attrs.lookup key

/-- The text-setting branch of the `_xml` helper: Python stores the text only
when it is truthy (`if text:`), so the empty string is dropped. -/
def xmlText (t : String) : Option String :=
  if t = "" then none else some t

mutual

/-- `ET.tostring`, simplified: renders an element back to markup text.  The
claims only compare this rendering with itself, never with real bytes. -/
def Xml.tostring : Xml → String
  | .elem t a c tx =>
    "<" ++ t ++ String.join (a.map (fun p => " " ++ p.1 ++ "=" ++ p.2)) ++ ">"
      ++ (tx.getD "") ++ Xml.tostringList c ++ "</" ++ t ++ ">"

def Xml.tostringList : List Xml → String
  | [] => ""
  | x :: xs => Xml.tostring x ++ Xml.tostringList xs

end

mutual

/-- `"".join(element.itertext())`: the concatenation of all text content of
an element and its descendants (used by the lossy `richpp` decoder). -/
def Xml.itertext : Xml → String
  | .elem _ _ c tx => (tx.getD "") ++ Xml.itertextList c

def Xml.itertextList : List Xml → String
  | [] => ""
  | x :: xs => Xml.itertext x ++ Xml.itertextList xs

end

/-! ## Python data values (`xmlprotocol.py`, basic types)

The Python side of the codec's data model.  Bare tuples are one constructor
`tup` (length 0 = option `none`, 1 = option `some`, 2 = pair); the namedtuples
`StateID`, `UnionL`, `UnionR`, `Goals`, `Goal` and `Location` are separate
constructors because `isinstance` distinguishes their classes — but note that
in Python every namedtuple also passes `isinstance(v, tuple)`, which matters
for the dispatch order of the encoder below. -/

inductive PyValue where
  | unit                          -- Python `None`
  | bool (b : Bool)
  | str (s : String)
  | int (n : Int)
  | stateID (n : Int)             -- `StateID(value)`
  | pylist (vs : List PyValue)
  | tup (vs : List PyValue)
  | unionL (v : PyValue)          -- `UnionL(value)`
  | unionR (v : PyValue)          -- `UnionR(value)`
  | goals (fg bg shelved abandoned : PyValue)
  | goal (id hyps g : PyValue)
  | loc (start stop : Int)        -- `Location(start, stop)`

/-- Python truthiness of a decoded value (`if source_opt:` and friends).
`None`, `False`, `0`, the empty string and empty containers are falsy;
namedtuples are non-empty tuples, hence truthy. -/
def PyValue.truthy : PyValue → Bool
  | .unit => false
  | .bool b => b
  | .str s => s != ""
  | .int n => n != 0
  | .stateID _ => true
  | .pylist vs => !vs.isEmpty
  | .tup vs => !vs.isEmpty
  | .unionL _ => true
  | .unionR _ => true
  | .goals _ _ _ _ => true
  | .goal _ _ _ => true
  | .loc _ _ => true

/-- Python subscription `v[0]` on a decoded value (`source_opt[0]`,
`optloc[0]`).  Sequences yield their first item (namedtuples their first
field); non-subscriptable values raise. -/
def PyValue.subscript0 : PyValue → Except String PyValue
  | .pylist (v :: _) => .ok v
  | .pylist [] => .error "IndexError"
  | .tup (v :: _) => .ok v
  | .tup [] => .error "IndexError"
  | .stateID n => .ok (.int n)
  | .unionL v => .ok v
  | .unionR v => .ok v
  | .goals fg _ _ _ => .ok fg
  | .goal i _ _ => .ok i
  | .loc a _ => .ok (.int a)
  | .str s =>
    match s.data with
    | c :: _ => .ok (.str (String.mk [c]))
    | [] => .error "IndexError"
  | .unit => .error "TypeError: not subscriptable"
  | .bool _ => .error "TypeError: not subscriptable"
  | .int _ => .error "TypeError: not subscriptable"

/-! ## Python equality on decoded values

Python `==` compares a namedtuple with any other tuple by length and
elementwise equality — `UnionL(None) == (None,)` is `True` — and compares
`bool` with `int` numerically (`True == 1`).  `pyNorm` makes the tuple view
explicit by rewriting every namedtuple to the bare tuple of its fields;
`pyEqNorm` then compares normalized values.  Lists compare only with lists,
tuples only with tuples, mirroring Python. -/

mutual

/-- Replace each namedtuple (`StateID`, `UnionL`, `UnionR`, `Goals`, `Goal`,
`Location`) by the plain tuple of its fields, recursively. -/
def pyNorm : PyValue → PyValue
  | .unit => .unit
  | .bool b => .bool b
  | .str s => .str s
  | .int n => .int n
  | .stateID n => .tup [.int n]
  | .pylist vs => .pylist (pyNormList vs)
  | .tup vs => .tup (pyNormList vs)
  | .unionL v => .tup [pyNorm v]
  | .unionR v => .tup [pyNorm v]
  | .goals a b c d => .tup [pyNorm a, pyNorm b, pyNorm c, pyNorm d]
  | .goal a b c => .tup [pyNorm a, pyNorm b, pyNorm c]
  | .loc a b => .tup [.int a, .int b]

def pyNormList : List PyValue → List PyValue
  | [] => []
  | v :: vs => pyNorm v :: pyNormList vs

end

mutual

/-- Equality of normalized values: scalars by value (with the numeric
`bool`/`int` cross cases), sequences elementwise within the same kind. -/
def pyEqNorm : PyValue → PyValue → Bool
  | .unit, .unit => true
  | .bool a, .bool b => a == b
  | .bool a, .int n => (if a then (1 : Int) else 0) == n
  | .int n, .bool b => n == (if b then (1 : Int) else 0)
  | .int a, .int b => a == b
  | .str a, .str b => a == b
  | .tup vs, .tup ws => pyEqNormList vs ws
  | .pylist vs, .pylist ws => pyEqNormList vs ws
  | _, _ => false

def pyEqNormList : List PyValue → List PyValue → Bool
  | [], [] => true
  | v :: vs, w :: ws => pyEqNorm v w && pyEqNormList vs ws
  | _, _ => false

end

/-- Python `v == w` on decoded values. -/
def pyEq (v w : PyValue) : Bool :=
  pyEqNorm (pyNorm v) (pyNorm w)

/-! ## The claimed data model

The values buildable from the constructors named by the codec's data-model
table: unit, bool, string, int, StateID, list, option (the empty and
1-element tuples), pair (the 2-element tuple) and union, closed under
nesting.  `Goals`/`Goal`/`Location` and longer bare tuples are outside it. -/

mutual

def inModel : PyValue → Bool
  | .unit => true
  | .bool _ => true
  | .str _ => true
  | .int _ => true
  | .stateID _ => true
  | .pylist vs => inModelList vs
  | .tup vs => decide (vs.length ≤ 2) && inModelList vs
  | .unionL v => inModel v
  | .unionR v => inModel v
  | .goals _ _ _ _ => false
  | .goal _ _ _ => false
  | .loc _ _ => false

def inModelList : List PyValue → Bool
  | [] => true
  | v :: vs => inModel v && inModelList vs

end

/-! ## Decimal integers

Models of Python `str(n)` and of `int(s)` restricted to the plain decimal
strings that appear on the wire (no whitespace, underscores or explicit plus
sign). -/

def digitVal (c : Char) : Option Nat :=
  if c.isDigit then some (c.toNat - Char.toNat (Char.ofNat 48)) else none

/-- The digit loop of Python `int(s)`: most-significant digit first,
accumulator style; any non-digit character fails the whole parse. -/
def parseDigitsAcc (acc : Nat) : List Char → Option Nat
  | [] => some acc
  | c :: cs =>
    match digitVal c with
    | some d => parseDigitsAcc (acc * 10 + d) cs
    | none => none

def pyParseIntChars : List Char → Option Int
  | [] => none
  | c :: rest =>
    if c = Char.ofNat 45 then
      match rest with
      | [] => none
      | _ :: _ => (parseDigitsAcc 0 rest).map (fun n => -(n : Int))
    else (parseDigitsAcc 0 (c :: rest)).map (fun n => Int.ofNat n)

/-- Python `int(s)` on a decimal literal with optional leading minus sign. -/
def pyParseInt (s : String) : Option Int :=
  pyParseIntChars s.data

/-- The decimal digits of a natural number, most significant first (the body
of Python `str` on a non-negative number; `0` prints as the single digit 0). -/
def natChars (n : Nat) : List Char :=
  if _h : n < 10 then [Nat.digitChar n]
  else natChars (n / 10) ++ [Nat.digitChar (n % 10)]
termination_by n
decreasing_by
  simp_wf
  exact Nat.div_lt_self (by omega) (by omega)

/-- Python `str` on an int: decimal digits, with a leading minus sign for
negative numbers. -/
def pyIntStr : Int → String
  | .ofNat m => String.mk (natChars m)
  | .negSucc m => String.mk (Char.ofNat 45 :: natChars (m + 1))

/-! ## The value encoder `_data_to_xml`

Mirrors `_CONVERTERS_TO_XML`: the converters are tried in list order, and the
first whose `match` accepts the value wins.  The order of the list is
load-bearing:

* index 4 (`StateID`) precedes the bare-tuple length checks, so a `StateID`
  — itself a 1-tuple — is encoded as `<state_id>`;
* indices 6–8 (tuple of length 0/1/2) precede indices 9–10
  (`UnionL`/`UnionR`).  A `UnionL`/`UnionR` value is a namedtuple of length
  1, so `isinstance(v, tuple) and len(v) == 1` accepts it first and it is
  encoded as `<option val="some">`; the dedicated union converters are
  unreachable.  (Likewise a `Location`, being a 2-tuple, encodes as a pair.)
* `Goals`/`Goal` values (4- and 3-tuples) match no converter: `TypeError`.

Failure (`raise TypeError`) is modelled as `Except.error`. -/

mutual

def _data_to_xml : PyValue → Except String Xml
  | .unit => .ok (.elem "unit" [] [] none)
  | .bool b => .ok (.elem "bool" [("val", if b then "true" else "false")] [] none)
  | .str s => .ok (.elem "string" [] [] (xmlText s))
  | .int n => .ok (.elem "int" [] [] (xmlText (pyIntStr n)))
  | .stateID n => .ok (.elem "state_id" [("val", pyIntStr n)] [] none)
  | .pylist vs => do pure (.elem "list" [] (← _data_to_xml_list vs) none)
  | .tup [] => .ok (.elem "option" [("val", "none")] [] none)
  | .tup [a] => do pure (.elem "option" [("val", "some")] [← _data_to_xml a] none)
  | .tup [a, b] => do pure (.elem "pair" [] [← _data_to_xml a, ← _data_to_xml b] none)
  | .tup _ => .error "TypeError: cannot serialize to XML"
  | .unionL v => do pure (.elem "option" [("val", "some")] [← _data_to_xml v] none)
  | .unionR v => do pure (.elem "option" [("val", "some")] [← _data_to_xml v] none)
  | .goals _ _ _ _ => .error "TypeError: cannot serialize to XML"
  | .goal _ _ _ => .error "TypeError: cannot serialize to XML"
  | .loc a b => .ok (.elem "pair" []
      [.elem "int" [] [] (xmlText (pyIntStr a)),
       .elem "int" [] [] (xmlText (pyIntStr b))] none)

def _data_to_xml_list : List PyValue → Except String (List Xml)
  | [] => .ok []
  | v :: vs => do pure ((← _data_to_xml v) :: (← _data_to_xml_list vs))

end

/-! ## The value decoder `_data_from_xml`

Mirrors `_CONVERTERS_FROM_XML` in list order.  Dispatch is by tag (plus the
`val` attribute for bool/option/union); an unmatched tag raises `TypeError`,
a missing expected attribute raises `KeyError`, and a missing expected child
raises `IndexError` — all modelled as `Except.error`. -/

mutual

def _data_from_xml (x : Xml) : Except String PyValue :=
  match x with
  | .elem tag attrs children text =>
    if tag = "unit" then .ok .unit
    else if tag = "bool" then
      match attrs.lookup "val" with
      | some "true" => .ok (.bool true)
      | some "false" => .ok (.bool false)
      -- any other `val`: both bool converters reject and no later converter
      -- matches the tag, so deserialization fails with TypeError
      | some _ => .error "TypeError: cannot deserialize from XML"
      | none => .error "KeyError: val"
    else if tag = "string" then .ok (.str (text.getD ""))
    else if tag = "int" then
      match text with
      | none => .error "TypeError: int() argument is None"
      | some s =>
        match pyParseInt s with
        | some n => .ok (.int n)
        | none => .error "ValueError: invalid literal for int()"
    else if tag = "state_id" then
      match attrs.lookup "val" with
      | none => .error "KeyError: val"
      | some s =>
        match pyParseInt s with
        | some n => .ok (.stateID n)
        | none => .error "ValueError: invalid literal for int()"
    else if tag = "list" then do
      pure (.pylist (← _data_from_xml_list children))
    else if tag = "option" then
      match attrs.lookup "val" with
      | some "some" =>
        match children with
        | c :: _ => do pure (.tup [← _data_from_xml c])
        | [] => .error "IndexError"
      | some "none" => .ok (.tup [])
      | some _ => .error "TypeError: cannot deserialize from XML"
      | none => .error "KeyError: val"
    else if tag = "pair" then do
      -- Python builds `tuple(_data_from_xml(i) for i in v)` over ALL children
      pure (.tup (← _data_from_xml_list children))
    else if tag = "union" then
      match attrs.lookup "val" with
      | some "in_l" =>
        match children with
        | c :: _ => do pure (.unionL (← _data_from_xml c))
        | [] => .error "IndexError"
      | some "in_r" =>
        match children with
        | c :: _ => do pure (.unionR (← _data_from_xml c))
        | [] => .error "IndexError"
      | some _ => .error "TypeError: cannot deserialize from XML"
      | none => .error "KeyError: val"
    else if tag = "richpp" then
      -- the deliberately lossy rich-text converter
      .ok (.str (Xml.itertext x))
    else if tag = "goals" then do
      match (← _data_from_xml_list children) with
      | [a, b, c, d] => pure (.goals a b c d)
      | _ => .error "TypeError: Goals arity"
    else if tag = "goal" then do
      match (← _data_from_xml_list children) with
      | [a, b, c] => pure (.goal a b c)
      | _ => .error "TypeError: Goal arity"
    else if tag = "loc" then
      match attrs.lookup "start", attrs.lookup "stop" with
      | some s1, some s2 =>
        match pyParseInt s1, pyParseInt s2 with
        | some a, some b => .ok (.loc a b)
        | _, _ => .error "ValueError: invalid literal for int()"
      | _, _ => .error "KeyError: start/stop"
    else .error "TypeError: cannot deserialize from XML"

def _data_from_xml_list : List Xml → Except String (List PyValue)
  | [] => .ok []
  | x :: xs => do pure ((← _data_from_xml x) :: (← _data_from_xml_list xs))

end

/-! ## Feedbacks (`xmlprotocol.py`, feedback classes)

The typed payload of a `<feedback>` element.  The nine known content kinds
each have a builder (`AddedAxiom.from_xml`, `ErrorMsg.from_xml`, ...); any
other content kind falls back to `AnyContent`, which keeps the raw markup. -/

inductive FeedbackContent where
  | axiomAdded
  | errorMsg (location : PyValue) (message : PyValue)
  | fileDependency (dependency : PyValue) (source : Option PyValue)
  | fileLoaded (module_ : PyValue) (vo_file_name : PyValue)
  | incomplete
  | inProgress
  | message (level : String) (location : Option PyValue) (message : PyValue)
  | processed
  | processingIn (worker : PyValue)
  | anyContent (text : String)

/-- `Feedback(state_id, content)`.  The `state_id` field holds whatever the
first child decoded to (ordinarily a `StateID`, but this is not checked). -/
structure Feedback where
  state_id : PyValue
  content : FeedbackContent

/-- `ErrorMsg.from_xml`: decodes the location and message children. -/
def ErrorMsg.from_xml (x : Xml) : Except String FeedbackContent := do
  match x.children with
  | c0 :: c1 :: _ => pure (.errorMsg (← _data_from_xml c0) (← _data_from_xml c1))
  | _ => .error "IndexError"

/-- `FileDependency.from_xml`: decodes the optional source (tested for Python
truthiness and subscripted) and the dependency. -/
def FileDependency.from_xml (x : Xml) : Except String FeedbackContent := do
  match x.children with
  | c0 :: c1 :: _ =>
    let source_opt ← _data_from_xml c0
    let source ← if source_opt.truthy then do
        pure (some (← source_opt.subscript0))
      else pure none
    let dependency ← _data_from_xml c1
    pure (.fileDependency dependency source)
  | _ => .error "IndexError"

/-- `FileLoaded.from_xml`. -/
def FileLoaded.from_xml (x : Xml) : Except String FeedbackContent := do
  match x.children with
  | c0 :: c1 :: _ => pure (.fileLoaded (← _data_from_xml c0) (← _data_from_xml c1))
  | _ => .error "IndexError"

/-- `Message.from_xml`: reads `xml[0][0].attrib[val]` as the level, then the
optional location and the message from `xml[0]`, whose child count selects
the 2-child (no location) or 3-child layout. -/
def Message.from_xml (x : Xml) : Except String FeedbackContent := do
  match x.children with
  | m :: _ =>
    match m.children with
    | l0 :: rest =>
      match l0.getAttr "val" with
      | none => .error "KeyError: val"
      | some level =>
        if m.children.length = 2 then
          match rest with
          | c1 :: _ => pure (.message level none (← _data_from_xml c1))
          | _ => .error "IndexError"
        else
          match rest with
          | c1 :: c2 :: _ =>
            let optloc ← _data_from_xml c1
            let l ← if optloc.truthy then do
                pure (some (← optloc.subscript0))
              else pure none
            pure (.message level l (← _data_from_xml c2))
          | _ => .error "IndexError"
    | [] => .error "IndexError"
  | [] => .error "IndexError"

/-- `ProcessingIn.from_xml`. -/
def ProcessingIn.from_xml (x : Xml) : Except String FeedbackContent := do
  match x.children with
  | c0 :: _ => pure (.processingIn (← _data_from_xml c0))
  | [] => .error "IndexError"

/-- `AnyContent.from_xml`: wraps the raw markup of the content element. -/
def AnyContent.from_xml (x : Xml) : Except String FeedbackContent :=
  .ok (.anyContent x.tostring)

/-- The keys of `Feedback._content_builders`. -/
def knownFeedbackKinds : List String :=
  ["addedaxiom", "errormsg", "filedependency", "fileloaded", "incomplete",
   "inprogress", "message", "processed", "processingin"]

/-- `Feedback.from_xml`: asserts the `feedback` tag, rejects non-state
feedback objects, decodes the state id from the first child, and dispatches
on the second child's `val` attribute through `_content_builders`, falling
back to `AnyContent` for unknown content kinds. -/
def Feedback.from_xml (x : Xml) : Except String Feedback :=
  if x.tag ≠ "feedback" then .error "AssertionError"
  else
    match x.getAttr "object" with
    | none => .error "KeyError: object"
    | some obj =>
      if obj ≠ "state" then .error "TypeError: Unsupported feedback"
      else
        match x.children with
        | c0 :: c1 :: _ => do
          let sid ← _data_from_xml c0
          match c1.getAttr "val" with
          | none => .error "KeyError: val"
          | some ct =>
            let content ←
              if ct = "addedaxiom" then pure FeedbackContent.axiomAdded
              else if ct = "errormsg" then ErrorMsg.from_xml c1
              else if ct = "filedependency" then FileDependency.from_xml c1
              else if ct = "fileloaded" then FileLoaded.from_xml c1
              else if ct = "incomplete" then pure FeedbackContent.incomplete
              else if ct = "inprogress" then pure FeedbackContent.inProgress
              else if ct = "message" then Message.from_xml c1
              else if ct = "processed" then pure FeedbackContent.processed
              else if ct = "processingin" then ProcessingIn.from_xml c1
              else AnyContent.from_xml c1
            pure { state_id := sid, content := content }
        | _ => .error "IndexError"

/-! ## `types.py`: `Mark`

A 1-indexed (line, column) document position.  `types.py` equips it with
`__lt__` (completed by `functools.total_ordering`); `sentence.py` re-declares
the same namedtuple shape without the order.  One structure serves both. -/

structure Mark where
  line : Int
  col : Int
deriving DecidableEq

/-- `Mark.__lt__`: lexicographic comparison by (line, column). -/
def Mark.lt (m1 m2 : Mark) : Bool :=
  decide (m1.line < m2.line) ||
    (decide (m1.line = m2.line) && decide (m1.col < m2.col))

/-! ## `sentence.py`: sentences, flags and highlights -/

/-- `SentenceRegion(bufnr, start, stop, command)`. -/
structure SentenceRegion where
  bufnr : Int
  start : Mark
  stop : Mark
  command : String
deriving DecidableEq

/-- `Location(start, stop)`: a character-offset sub-range of a sentence. -/
structure Location where
  start : Int
  stop : Int
deriving DecidableEq

/-- The `_flag` values of a `Sentence` (minus `None`, modelled as
`Option.none`).  They double as the highlight groups: `CoqStcProcessing`,
`CoqStcProcessed`, `CoqStcAxiom` (constructor `axiomFlag`), `CoqStcError`. -/
inductive Flag where
  | processing
  | processed
  | axiomFlag
  | error
deriving DecidableEq

/-- The highlight-group name attached to each flag. -/
def Flag.hlgroup : Flag → String
  | .processing => "CoqStcProcessing"
  | .processed => "CoqStcProcessed"
  | .axiomFlag => "CoqStcAxiom"
  | .error => "CoqStcError"

/-- UI updates issued through `ui_cmds` / `handle_action`: highlight and
unhighlight actions (`HlRegion`, `UnhlRegion`), message-panel and goal-panel
updates, and the connection-lost notification. -/
inductive UiAction where
  | hlRegion (bufnr : Int) (start stop : Mark) (serial : Nat) (hlgroup : String)
  | unhlRegion (bufnr : Int) (start stop : Mark) (serial : Nat)
  | showMessage (message : String) (isError : Bool)
  | showGoal (goals : Option PyValue)
  | connectionLost

/-- The mutable state of a `Sentence` object: its region and state id, the
current highlight id `_hlid` (modelled as its start/stop marks plus the
`_hlcount` serial at creation; the buffer number is always `region.bufnr`),
the `_flag`, and the `_hlcount` counter. -/
structure Sentence where
  region : SentenceRegion
  state_id : Int
  hlid : Option (Mark × Mark × Nat)
  flag : Option Flag
  hlcount : Nat
deriving DecidableEq

/-- `Sentence(region, state_id)`: a fresh sentence with no highlight. -/
def Sentence.create (region : SentenceRegion) (state_id : Int) : Sentence :=
  { region := region, state_id := state_id, hlid := none, flag := none, hlcount := 0 }

/-- `Sentence.unhighlight`: withdraw the current highlight, if any, and reset
the flag. -/
def Sentence.unhighlight (s : Sentence) : Sentence × List UiAction :=
  match s.hlid with
  | some (a, b, c) =>
    ({ s with hlid := none, flag := none }, [.unhlRegion s.region.bufnr a b c])
  | none => (s, [])

/-- `OffsetToMark`: translate a character offset inside the sentence text to
a `Mark`, starting at the region's start mark.  A newline advances the line
and resets the column; any other character advances the column.  The offset
is clamped to the text length (`min(offset, len)`, realized by `List.take`);
a negative offset, like Python's `while counter < offset`, moves nowhere
(realized by `Int.toNat`). -/
def advanceMark (m : Mark) (c : Char) : Mark :=
  if c = '\n' then { line := m.line + 1, col := 1 } else { m with col := m.col + 1 }

def offset_to_mark (region : SentenceRegion) (offset : Int) : Mark :=
  (region.command.data.take offset.toNat).foldl advanceMark
    { line := region.start.line, col := region.start.col }

/-- `Sentence._highlight`: highlight the whole sentence region with the
given group, first withdrawing any previous highlight.  The new highlight id
carries the current `_hlcount` serial, which is then incremented. -/
def Sentence.hl_whole (f : Flag) (s : Sentence) : Sentence × List UiAction :=
  let s1 := s.unhighlight.1
  ({ s1 with hlid := some (s1.region.start, s1.region.stop, s1.hlcount),
             hlcount := s1.hlcount + 1 },
   s.unhighlight.2
     ++ [.hlRegion s1.region.bufnr s1.region.start s1.region.stop s1.hlcount f.hlgroup])

/-- `Sentence._highlight_sub`: highlight the sub-range of the sentence given
by character offsets.  The second `forward` call continues from the first
one's position, so the stop mark corresponds to the larger clamped offset.
If both offsets collapse to the same mark, nothing is highlighted. -/
def Sentence.hl_sub (f : Flag) (startOff stopOff : Int) (s : Sentence) :
    Sentence × List UiAction :=
  let m1 := offset_to_mark s.region startOff
  let m2 := offset_to_mark s.region (max startOff stopOff)
  if m1 = m2 then (s, [])
  else
    let s1 := s.unhighlight.1
    ({ s1 with hlid := some (m1, m2, s1.hlcount), hlcount := s1.hlcount + 1 },
     s.unhighlight.2 ++ [.hlRegion s1.region.bufnr m1 m2 s1.hlcount f.hlgroup])

/-- `Sentence.set_processing`: highlight as `CoqStcProcessing` unless already
in that state. -/
def Sentence.set_processing (s : Sentence) : Sentence × List UiAction :=
  if s.flag = some .processing then (s, [])
  else
    ({ (s.hl_whole .processing).1 with flag := some .processing }, (s.hl_whole .processing).2)

/-- `Sentence.set_processed`: highlight as `CoqStcProcessed`, unless the flag
is already `CoqStcAxiom`, `CoqStcProcessed` or `CoqStcError` — those are
never overridden by a later processed feedback. -/
def Sentence.set_processed (s : Sentence) : Sentence × List UiAction :=
  if s.flag = some .axiomFlag ∨ s.flag = some .processed ∨ s.flag = some .error then
    (s, [])
  else
    ({ (s.hl_whole .processed).1 with flag := some .processed }, (s.hl_whole .processed).2)

/-- `Sentence.set_error`: withdraw the highlight, highlight the error
sub-range when a non-collapsed location is given (the whole sentence
otherwise), surface the message, and set the error flag. -/
def Sentence.set_error (location : Option Location) (message : String)
    (s : Sentence) : Sentence × List UiAction :=
  let s1 := s.unhighlight.1
  let step2 :=
    match location with
    | some l => if l.start ≠ l.stop then s1.hl_sub .error l.start l.stop
                else s1.hl_whole .error
    | none => s1.hl_whole .error
  ({ step2.1 with flag := some .error },
   s.unhighlight.2 ++ step2.2 ++ [.showMessage message true])

/-! ## `stm.py`: requests, responses and the state machine

`SequentialTaskThread` runs scheduled tasks strictly in FIFO order; each task
performs one request/response exchange (`call_async`) and only its response
callback resumes the queue.  All STM mutation happens in those callbacks, so
the whole system is modelled as a sequential runner `STM.run` over a task
list, consuming one scripted outcome per request.  `discard_scheduled_tasks`
corresponds to the runner dropping the unprocessed rest of the task list. -/

/-- `ErrorValue(location, state_id, message)`: a `fail` response.  The
decoded `state_id` is kept as its integer value. -/
structure ErrorValue where
  location : Option Location
  state_id : Int
  message : String
deriving DecidableEq

/-- Python `repr` of an `ErrorValue`, as interpolated by
the RuntimeError message of the Edit_at failure path (approximate quoting). -/
def ErrorValue.pyrepr (e : ErrorValue) : String :=
  let locpart :=
    match e.location with
    | none => "None"
    | some l => "Location(start=" ++ toString l.start ++ ", stop=" ++ toString l.stop ++ ")"
  "Failure(location=" ++ locpart ++ ", state_id=StateID(value=" ++ toString e.state_id
    ++ "), message=" ++ e.message ++ ")"

/-- The `good` payload of an `AddRes`. -/
structure AddOk where
  new_state_id : Int
  message : String
  next_state_id : Int
deriving DecidableEq

/-- Wire requests sent by the STM (`AddReq`, `GoalReq`, `EditAtReq`), with
the fields the STM fills in.  `state_id` is `none` when the STM has no
initial state id yet (Python passes its `None`). -/
inductive Req where
  | add (command : String) (edit_id : Int) (state_id : Option Int) (verbose : Bool)
  | goal
  | edit_at (state_id : Option Int)
deriving DecidableEq

/-- The scripted outcome of one Add exchange: a parsed response (`good` or
`fail`), or loss of the connection before any response arrives. -/
inductive AddOutcome where
  | res (r : Except ErrorValue AddOk)
  | lost

/-- The scripted outcome of one Goal exchange (`GoalRes.goals` is the decoded
optional goals value). -/
inductive GoalOutcome where
  | res (r : Except ErrorValue (Option PyValue))
  | lost

/-- The scripted outcome of one Edit_at exchange (the STM ignores the
`focused`/`qed`/`old` fields of a good `EditAtRes`). -/
inductive EditOutcome where
  | res (r : Except ErrorValue Unit)
  | lost

/-- The STM fields the claims observe: `_next_edit_id`, `_sentences`,
`_failed_sentence` and `_init_state_id`.  `_state_id_map` is maintained in
lockstep with `_sentences` at every mutation site (append/insert, del/del,
clear/clear), so lookups in it are modelled as lookups by state id in
`sentences` (see `state_id_map_get`). -/
structure STM where
  next_edit_id : Int
  sentences : List Sentence
  failed_sentence : Option Sentence
  init_state_id : Option Int

/-- A fresh STM (`STM.__init__`). -/
def STM.new : STM :=
  { next_edit_id := -1, sentences := [], failed_sentence := none, init_state_id := none }

/-- `self._state_id_map.get(state_id, None)` under the lockstep invariant. -/
def state_id_map_get (sentences : List Sentence) (sid : Int) : Option Sentence :=
  sentences.find? (fun s => s.state_id = sid)

/-- `STM._tip_state_id`: the last sentence's state id, or the initial one. -/
def STM.tip_state_id (st : STM) : Option Int :=
  match st.sentences.getLast? with
  | some s => some s.state_id
  | none => st.init_state_id

/-- The `TypeError` raised by every `stm.py` call to `Sentence.unhighlight`:
the method requires a `handle_action` argument, but `_clear_failed_sentence`,
`_backward_before_index`, `close` and the on-lost callback all invoke it with
no argument.  The call raises before anything is mutated or displayed. -/
def typeErrUnhighlight : String :=
  "TypeError: unhighlight() missing 1 required positional argument: handle_action"

/-- The `TypeError` raised by `_forward_one` when reporting an Add failure:
it calls `sentence.set_error(location, message, highlight, show_message)`
with four arguments, but `Sentence.set_error` takes only
`(location, message, handle_action)`.  The call raises before any flag or
highlight is set and before any message is shown. -/
def typeErrSetError : String :=
  "TypeError: set_error() takes 4 positional arguments but 5 were given"

/-- The `AttributeError` raised by `_update_goal` when a Goal failure names a
live state id: it calls `sentence.show_error(...)`, but class `Sentence` has
no attribute `show_error` in this source revision. -/
def attrErrShowError : String :=
  "AttributeError: Sentence object has no attribute show_error"

/-- `STM._clear_failed_sentence`.  With no failed sentence recorded it is a
no-op; with one recorded it calls `self._failed_sentence.unhighlight()` with
no argument, which raises `TypeError` before `_failed_sentence` is reset. -/
def STM.clear_failed (st : STM) : Except String STM :=
  match st.failed_sentence with
  | some _ => .error typeErrUnhighlight
  | none => .ok st

/-- The body of the callback produced by `STM._make_on_lost_cb`: discard all
scheduled tasks (realized by the runner, which empties the leftover queue),
then loop `sentence.unhighlight()` over the history.  The loop passes no
`handle_action`, so with a non-empty history it raises `TypeError` at the
first sentence, leaving `_sentences` uncleared and never reaching
`ui_cmds.connection_lost()`; only with an empty history does the callback
complete, clear the (already empty) history and notify the UI. -/
def STM.on_lost (st : STM) : STM × List UiAction × Option String :=
  match st.sentences with
  | [] => ({ st with sentences := [] }, [.connectionLost], none)
  | _ :: _ => (st, [], some typeErrUnhighlight)

/-- The scheduled task kinds relevant to the claims: the per-sentence task of
`STM._forward_one`, the goal-refresh task of `STM._update_goal`, and the
rewind performed by `STM._backward_before_index` (its index argument). -/
inductive Task where
  | forward_one (sregion : SentenceRegion)
  | update_goal
  | backward_before_index (index : Nat)

/-- The target-state-id lookup at the head of `STM._backward_before_index`:
the initial state id for index 0, otherwise
`self._sentences[index - 1].state_id` (an out-of-range index raises
`IndexError` in the task body). -/
def sidResolve (st : STM) (i : Nat) : Except String (Option Int) :=
  if i = 0 then .ok st.init_state_id
  else
    match st.sentences.get? (i - 1) with
    | some s => .ok (some s.state_id)
    | none => .error "IndexError"

/-- The send phase of a task body, run on the task thread before any response
arrives.  For `_forward_one`: `_clear_failed_sentence()` (which raises if a
failed sentence is recorded), then `AddReq(command, _alloc_edit_id(),
_tip_state_id(), False)` — allocation decrements `_next_edit_id`.  For
`_update_goal`: just `GoalReq()`.  For `_backward_before_index`: the index
lookup, `_clear_failed_sentence()`, then `EditAtReq(state_id)`.  An `error`
means the task body raised: the exception kills the task thread, so no
request is sent and no later task ever leaves the queue. -/
def STM.sendPhase (st : STM) : Task → Except String (STM × Req)
  | .forward_one r =>
    match st.clear_failed with
    | .error m => .error m
    | .ok st1 =>
      .ok ({ st1 with next_edit_id := st1.next_edit_id - 1 },
        Req.add r.command st1.next_edit_id st1.tip_state_id false)
  | .update_goal => .ok (st, Req.goal)
  | .backward_before_index i =>
    match sidResolve st i with
    | .error m => .error m
    | .ok sid =>
      match st.clear_failed with
      | .error m => .error m
      | .ok st1 => .ok (st1, Req.edit_at sid)

/-- The observable outcome of draining the task queue: the final STM state,
the wire requests sent (in order), the UI actions performed (in order), the
message of the first uncaught exception if one was raised, and the tasks
still sitting in the queue when the system wedged (non-empty only when a
task died, a callback raised, or the run was starved of responses). -/
structure RunOut where
  st : STM
  reqs : List Req
  ui : List UiAction
  exc : Option String
  leftover : List Task

/-- What happens after an exception escapes a response callback.  The
callback ran in the reader thread and the uncaught exception kills that
thread, but `finally_call(done)` has already released the task thread, so
the next queued task (if any) still runs its send phase — its request goes
out on the writer thread — and then blocks forever on a response that can no
longer be delivered; the tasks after it never leave the queue.  If the next
task body itself raises (failed sentence recorded, or index out of range),
the task thread dies too and no request is sent. -/
def afterCallbackRaise (st : STM) (reqs : List Req) (ui : List UiAction)
    (excMsg : String) : List Task → RunOut
  | [] => ⟨st, reqs, ui, some excMsg, []⟩
  | t :: rest =>
    match st.sendPhase t with
    | .error _ => ⟨st, reqs, ui, some excMsg, rest⟩
    | .ok (st1, req) => ⟨st1, reqs ++ [req], ui, some excMsg, rest⟩

/-- The sequential task runner: one scripted outcome is consumed per request.

* `forward_one` (`STM._forward_one`): the send phase (which raises without
  sending when a failed sentence is recorded, killing the task thread with
  the remaining tasks still queued).  On a good response append a new
  sentence (flag processing) and show the response message; on a fail
  response discard the scheduled tasks, build a DETACHED sentence with state
  id 0 (never appended to the history or the map), remember it as
  `_failed_sentence`, and then die of the `TypeError` from the four-argument
  `set_error` call — no flag, highlight or message ever reaches the UI; on
  connection loss run the on-lost callback (tasks already discarded).
* `update_goal` (`STM._update_goal`): send `Goal`; show the goals on
  success.  On a failure naming a live state id, the `sentence.show_error`
  call raises `AttributeError` (no such method), which escapes the callback;
  on a failure with an unknown state id, show the error message and
  continue.
* `backward_before_index` (`STM._backward_before_index`): the send phase
  (index lookup, clear-failed, `Edit_at`).  On success the code loops
  `sentence.unhighlight()` over the dropped suffix: with a non-empty suffix
  the loop raises `TypeError` at its first sentence, leaving the history
  unchanged; with an empty suffix it proceeds normally.  On failure raise
  `RuntimeError(Edit_at should not fail: ...)`.  Both exceptions escape the
  response callback (`afterCallbackRaise`); on connection loss run the
  on-lost callback.

When the script has no outcome for a sent request, the run is starved: the
request is out, the task blocks, and the rest of the queue is leftover. -/
def STM.run (st : STM) :
    List Task → List AddOutcome → List GoalOutcome → List EditOutcome → RunOut
  | [], _, _, _ => ⟨st, [], [], none, []⟩
  | .forward_one r :: rest, aScr, gScr, eScr =>
    match st.sendPhase (.forward_one r) with
    | .error m => ⟨st, [], [], some m, rest⟩
    | .ok (st1, req) =>
      match aScr with
      | [] => ⟨st1, [req], [], none, rest⟩
      | out :: aRest =>
        match out with
        | .res (.ok o) =>
          let sp := (Sentence.create r o.new_state_id).set_processing
          let st2 := { st1 with sentences := st1.sentences ++ [sp.1] }
          let k := STM.run st2 rest aRest gScr eScr
          ⟨k.st, req :: k.reqs, sp.2 ++ [.showMessage o.message false] ++ k.ui,
           k.exc, k.leftover⟩
        | .res (.error _) =>
          ⟨{ st1 with failed_sentence := some (Sentence.create r 0) },
           [req], [], some typeErrSetError, []⟩
        | .lost =>
          let ol := st1.on_lost
          ⟨ol.1, [req], ol.2.1, ol.2.2, []⟩
  | .update_goal :: rest, aScr, gScr, eScr =>
    match gScr with
    | [] => ⟨st, [Req.goal], [], none, rest⟩
    | out :: gRest =>
      match out with
      | .res (.ok g) =>
        let k := STM.run st rest aScr gRest eScr
        ⟨k.st, Req.goal :: k.reqs, [.showGoal g] ++ k.ui, k.exc, k.leftover⟩
      | .res (.error e) =>
        if (state_id_map_get st.sentences e.state_id).isSome then
          afterCallbackRaise st [Req.goal] [] attrErrShowError rest
        else
          let k := STM.run st rest aScr gRest eScr
          ⟨k.st, Req.goal :: k.reqs, [.showMessage e.message true] ++ k.ui,
           k.exc, k.leftover⟩
      | .lost =>
        let ol := st.on_lost
        ⟨ol.1, [Req.goal], ol.2.1, ol.2.2, []⟩
  | .backward_before_index i :: rest, aScr, gScr, eScr =>
    match st.sendPhase (.backward_before_index i) with
    | .error m => ⟨st, [], [], some m, rest⟩
    | .ok (st1, req) =>
      match eScr with
      | [] => ⟨st1, [req], [], none, rest⟩
      | out :: eRest =>
        match out with
        | .res (.ok _) =>
          match st1.sentences.drop i with
          | [] =>
            let k := STM.run { st1 with sentences := st1.sentences.take i }
              rest aScr gScr eRest
            ⟨k.st, req :: k.reqs, k.ui, k.exc, k.leftover⟩
          | _ :: _ =>
            afterCallbackRaise st1 [req] [] typeErrUnhighlight rest
        | .res (.error e) =>
          afterCallbackRaise st1 [req] []
            ("Edit_at should not fail: " ++ e.pyrepr) rest
        | .lost =>
          let ol := st1.on_lost
          ⟨ol.1, [req], ol.2.1, ol.2.2, []⟩

/-- `STM.forward_many`: schedule one `forward_one` task per sentence region,
then one goal refresh, and drain the queue. -/
def STM.forward_many (st : STM) (sregions : List SentenceRegion)
    (aScr : List AddOutcome) (gScr : List GoalOutcome) (eScr : List EditOutcome) :
    RunOut :=
  st.run (sregions.map Task.forward_one ++ [Task.update_goal]) aScr gScr eScr

/-- `STM.forward`: the single-sentence version of `forward_many`. -/
def STM.forward_one_call (st : STM) (sregion : SentenceRegion)
    (aScr : List AddOutcome) (gScr : List GoalOutcome) (eScr : List EditOutcome) :
    RunOut :=
  st.run [Task.forward_one sregion, Task.update_goal] aScr gScr eScr

/-- `FeedbackHandler._on_processed`: if the state id resolves to a live
sentence, promote it to processed via `Sentence.set_processed`. -/
def FeedbackHandler.on_processed (sentence : Option Sentence) :
    Option Sentence × List UiAction :=
  match sentence with
  | some s => (some s.set_processed.1, s.set_processed.2)
  | none => (none, [])

/-! ## `coqtopinstance.py`: `CoqtopInstance.spawn`

The child process and reader thread are opaque tokens.  `spawn` raises (and
mutates nothing) when a process already exists; otherwise it stores the new
process and starts the reader. -/

structure CoqtopInstance where
  proc : Option Nat
  reader : Option Nat

/-- `CoqtopInstance.spawn(exec_args)`: the pair is (state after the call,
normal or exceptional result). -/
def CoqtopInstance.spawn (inst : CoqtopInstance) (_exec_args : List String)
    (newProc newReader : Nat) : CoqtopInstance × Except String Unit :=
  match inst.proc with
  | some _ => (inst, .error "CoqtopInstance already spawned.")
  | none => ({ proc := some newProc, reader := some newReader }, .ok ())

/-! ## Projections used in the claim statements -/

/-- The commands of the `Add` requests in a trace, in order. -/
def addCommands (reqs : List Req) : List String :=
  reqs.filterMap (fun r =>
    match r with
    | .add c _ _ _ => some c
    | _ => none)

/-- The number of `Goal` requests in a trace. -/
def goalCount (reqs : List Req) : Nat :=
  (reqs.filter (fun r =>
    match r with
    | .goal => true
    | _ => false)).length

/-- The targets of the `Edit_at` requests in a trace, in order. -/
def editAtTargets (reqs : List Req) : List (Option Int) :=
  reqs.filterMap (fun r =>
    match r with
    | .edit_at sid => some sid
    | _ => none)

/-- The number of connection-lost notifications in a UI trace. -/
def connectionLostCount (ui : List UiAction) : Nat :=
  (ui.filter (fun a =>
    match a with
    | .connectionLost => true
    | _ => false)).length

/-- The number of unhighlight actions in a UI trace. -/
def unhlCount (ui : List UiAction) : Nat :=
  (ui.filter (fun a =>
    match a with
    | .unhlRegion _ _ _ _ => true
    | _ => false)).length

/-! ## Concrete fixtures used by the witnesses -/

def sregA : SentenceRegion := ⟨1, ⟨1, 1⟩, ⟨3, 1⟩, "Theorem a: 1 = 1."⟩

def sregB : SentenceRegion := ⟨1, ⟨3, 1⟩, ⟨4, 1⟩, "Proof."⟩

def sregC : SentenceRegion := ⟨1, ⟨4, 1⟩, ⟨5, 1⟩, "reflexivity."⟩

/-- A freshly initialized STM whose Init exchange returned state id 1. -/
def stm0 : STM := ⟨-1, [], none, some 1⟩

/-- An STM holding two live sentences with state ids 4 and 5. -/
def stmTwo : STM :=
  ⟨-3, [Sentence.mk sregA 4 none none 0, Sentence.mk sregB 5 none none 0], none, some 1⟩

def addOk2 : AddOk := ⟨2, "", 2⟩

def errBoom : ErrorValue := ⟨none, 1, "boom"⟩

/-- The Edit_at failure value naming the nearest valid rewind point (id 7). -/
def errSuggest : ErrorValue := ⟨none, 7, "the nearest valid rewind point"⟩

/-- A three-sentence batch whose second Add fails (the third sentence and the
goal refresh are still scheduled at that point). -/
def outC2 : RunOut :=
  stm0.forward_many [sregA, sregB, sregC]
    [AddOutcome.res (Except.ok addOk2), AddOutcome.res (Except.error errBoom)] [] []

/-- A one-sentence batch whose single Add fails. -/
def outFailOne : RunOut :=
  stm0.forward_many [sregA] [AddOutcome.res (Except.error errBoom)]
    [GoalOutcome.res (Except.ok none)] []

/-- A one-sentence batch whose Add succeeds. -/
def outOkOne : RunOut :=
  stm0.forward_many [sregA] [AddOutcome.res (Except.ok addOk2)]
    [GoalOutcome.res (Except.ok none)] []

/-- First submission of the sentence `sregB`. -/
def outDup1 : RunOut :=
  stm0.forward_one_call sregB [AddOutcome.res (Except.ok addOk2)]
    [GoalOutcome.res (Except.ok none)] []

/-- Second submission of the very same sentence `sregB`. -/
def outDup2 : RunOut :=
  outDup1.st.forward_one_call sregB [AddOutcome.res (Except.ok (AddOk.mk 3 "" 3))]
    [GoalOutcome.res (Except.ok none)] []

/-- A rewind whose Edit_at exchange fails with `errSuggest`. -/
def outEdit : RunOut :=
  stmTwo.run [Task.backward_before_index 1, Task.update_goal] [] []
    [EditOutcome.res (Except.error errSuggest)]

/-- A two-sentence batch interrupted by connection loss after the first Add. -/
def outLost : RunOut :=
  stm0.forward_many [sregA, sregB]
    [AddOutcome.res (Except.ok addOk2), AddOutcome.lost] [] []

/-! ## Helper lemmas -/

theorem except_bind_ok {α β : Type} (a : α) (f : α → Except String β) :
    (Except.ok a : Except String α) >>= f = f a := rfl

theorem digitVal_digitChar {d : Nat} (h : d < 10) :
    digitVal (Nat.digitChar d) = some d := by
  interval_cases d <;> rfl

theorem digitChar_ne_dash {d : Nat} (h : d < 10) :
    Nat.digitChar d ≠ Char.ofNat 45 := by
  interval_cases d <;> decide

theorem parseDigitsAcc_append (xs ys : List Char) :
    ∀ acc, parseDigitsAcc acc (xs ++ ys)
      = (parseDigitsAcc acc xs).bind (fun m => parseDigitsAcc m ys) := by
  induction xs with
  | nil => intro acc; simp [parseDigitsAcc]
  | cons c cs ih =>
    intro acc
    simp only [List.cons_append, parseDigitsAcc]
    cases h : digitVal c <;> simp [h, ih]

theorem natChars_ne_nil (n : Nat) : natChars n ≠ [] := by
  rw [natChars]
  split <;> simp

theorem natChars_digits (n : Nat) :
    ∀ c ∈ natChars n, ∃ d, d < 10 ∧ c = Nat.digitChar d := by
  induction n using Nat.strong_induction_on with
  | _ n ih =>
    intro c hc
    rw [natChars] at hc
    split at hc
    · next h =>
      simp only [List.mem_singleton] at hc
      exact ⟨n, h, hc⟩
    · next h =>
      rcases List.mem_append.mp hc with h1 | h2
      · exact ih (n / 10) (Nat.div_lt_self (by omega) (by omega)) c h1
      · simp only [List.mem_singleton] at h2
        exact ⟨n % 10, Nat.mod_lt _ (by omega), h2⟩

theorem parseDigitsAcc_natChars (n : Nat) :
    ∀ acc, parseDigitsAcc acc (natChars n)
      = some (acc * 10 ^ (natChars n).length + n) := by
  induction n using Nat.strong_induction_on with
  | _ n ih =>
    intro acc
    rw [natChars]
    split
    · next h =>
      simp [parseDigitsAcc, digitVal_digitChar h]
    · next h =>
      have hdiv : n / 10 < n := Nat.div_lt_self (by omega) (by omega)
      have hmod : n % 10 < 10 := Nat.mod_lt _ (by omega)
      rw [parseDigitsAcc_append, ih (n / 10) hdiv acc]
      simp only [Option.bind_some, parseDigitsAcc, digitVal_digitChar hmod,
        List.length_append, List.length_singleton]
      refine congrArg some ?_
      have hdm : n / 10 * 10 + n % 10 = n := by omega
      calc (acc * 10 ^ (natChars (n / 10)).length + n / 10) * 10 + n % 10
          = acc * (10 ^ (natChars (n / 10)).length * 10)
            + (n / 10 * 10 + n % 10) := by ring
        _ = acc * 10 ^ ((natChars (n / 10)).length + 1) + n := by
            rw [hdm, pow_succ]

theorem pyIntStr_ne_empty (n : Int) : pyIntStr n ≠ "" := by
  cases n with
  | ofNat m =>
    simp only [pyIntStr]
    intro h
    exact natChars_ne_nil m (by simpa [String.ext_iff] using h)
  | negSucc m =>
    simp only [pyIntStr]
    intro h
    simp [String.ext_iff] at h

theorem pyParseInt_pyIntStr (n : Int) : pyParseInt (pyIntStr n) = some n := by
  have key : ∀ m : Nat, parseDigitsAcc 0 (natChars m) = some m := by
    intro m
    simpa using parseDigitsAcc_natChars m 0
  cases n with
  | ofNat m =>
    obtain ⟨c, cs, hcs⟩ : ∃ c cs, natChars m = c :: cs := by
      cases h : natChars m with
      | nil => exact absurd h (natChars_ne_nil m)
      | cons a as => exact ⟨a, as, rfl⟩
    obtain ⟨d, hd, hcd⟩ := natChars_digits m c (by simp [hcs])
    have hk := key m
    rw [hcs, hcd] at hk
    rw [hcd] at hcs
    simp [pyParseInt, pyIntStr, pyParseIntChars, hcs, digitChar_ne_dash hd, hk]
  | negSucc m =>
    have hne := natChars_ne_nil (m + 1)
    simp only [pyParseInt, pyIntStr, pyParseIntChars, if_pos rfl]
    cases h : natChars (m + 1) with
    | nil => exact absurd h hne
    | cons a as =>
      have hk := key (m + 1)
      rw [h] at hk
      simp [hk, Int.negSucc_eq]

@[simp] theorem addCommands_nil : addCommands [] = [] := rfl

@[simp] theorem addCommands_cons_add (c : String) (i : Int) (sid : Option Int)
    (v : Bool) (l : List Req) :
    addCommands (Req.add c i sid v :: l) = c :: addCommands l := rfl

@[simp] theorem addCommands_cons_goal (l : List Req) :
    addCommands (Req.goal :: l) = addCommands l := rfl

@[simp] theorem addCommands_cons_edit (sid : Option Int) (l : List Req) :
    addCommands (Req.edit_at sid :: l) = addCommands l := rfl

@[simp] theorem goalCount_nil : goalCount [] = 0 := rfl

@[simp] theorem goalCount_cons_add (c : String) (i : Int) (sid : Option Int)
    (v : Bool) (l : List Req) :
    goalCount (Req.add c i sid v :: l) = goalCount l := rfl

@[simp] theorem goalCount_cons_goal (l : List Req) :
    goalCount (Req.goal :: l) = goalCount l + 1 := by
  simp [goalCount]

@[simp] theorem goalCount_cons_edit (sid : Option Int) (l : List Req) :
    goalCount (Req.edit_at sid :: l) = goalCount l := rfl

theorem clear_failed_of_none {st : STM} (h : st.failed_sentence = none) :
    st.clear_failed = Except.ok st := by
  simp [STM.clear_failed, h]

theorem sendPhase_forward_of_none {st : STM} (r : SentenceRegion)
    (h : st.failed_sentence = none) :
    st.sendPhase (Task.forward_one r)
      = Except.ok ({ st with next_edit_id := st.next_edit_id - 1 },
          Req.add r.command st.next_edit_id st.tip_state_id false) := by
  simp [STM.sendPhase, clear_failed_of_none h]

/-- Draining a batch whose Add exchanges succeed for a prefix `good` and then
fail on `bad`, starting from a state with no failed sentence recorded:
exactly the Add requests for `good` and `bad` are sent (later tasks,
including any goal refresh in `rest`, are discarded, so no Goal request goes
out), the history grows by exactly the successful prefix, the failing
sentence is recorded detached — a bare `Sentence(sregion, 0)` with no flag
and no highlight — and the run dies of the `TypeError` raised by the
four-argument `set_error` call. -/
theorem run_adds_fail (e : ErrorValue) (good : List SentenceRegion) :
    ∀ (oks : List AddOk) (st : STM) (bad : SentenceRegion)
      (after : List SentenceRegion) (rest : List Task) (aTail : List AddOutcome)
      (gScr : List GoalOutcome) (eScr : List EditOutcome),
      good.length = oks.length →
      st.failed_sentence = none →
      addCommands (st.run ((good ++ bad :: after).map Task.forward_one ++ rest)
          ((oks.map fun o => AddOutcome.res (Except.ok o))
            ++ AddOutcome.res (Except.error e) :: aTail) gScr eScr).reqs
        = good.map SentenceRegion.command ++ [bad.command]
      ∧ goalCount (st.run ((good ++ bad :: after).map Task.forward_one ++ rest)
          ((oks.map fun o => AddOutcome.res (Except.ok o))
            ++ AddOutcome.res (Except.error e) :: aTail) gScr eScr).reqs = 0
      ∧ (st.run ((good ++ bad :: after).map Task.forward_one ++ rest)
          ((oks.map fun o => AddOutcome.res (Except.ok o))
            ++ AddOutcome.res (Except.error e) :: aTail) gScr eScr).st.sentences.length
        = st.sentences.length + good.length
      ∧ (st.run ((good ++ bad :: after).map Task.forward_one ++ rest)
          ((oks.map fun o => AddOutcome.res (Except.ok o))
            ++ AddOutcome.res (Except.error e) :: aTail) gScr eScr).st.failed_sentence
        = some (Sentence.create bad 0)
      ∧ (st.run ((good ++ bad :: after).map Task.forward_one ++ rest)
          ((oks.map fun o => AddOutcome.res (Except.ok o))
            ++ AddOutcome.res (Except.error e) :: aTail) gScr eScr).leftover = []
      ∧ (st.run ((good ++ bad :: after).map Task.forward_one ++ rest)
          ((oks.map fun o => AddOutcome.res (Except.ok o))
            ++ AddOutcome.res (Except.error e) :: aTail) gScr eScr).exc
        = some typeErrSetError := by
  induction good with
  | nil =>
    intro oks st bad after rest aTail gScr eScr hlen hfail
    cases oks with
    | cons o os => simp at hlen
    | nil =>
      simp [STM.run, sendPhase_forward_of_none bad hfail]
  | cons g gs ih =>
    intro oks st bad after rest aTail gScr eScr hlen hfail
    cases oks with
    | nil => simp at hlen
    | cons o os =>
      have hlen' : gs.length = os.length := by simpa using hlen
      simp only [List.cons_append, List.map_cons, STM.run,
        sendPhase_forward_of_none g hfail]
      obtain ⟨h1, h2, h3, h4, h5, h6⟩ :=
        ih os (STM.mk (st.next_edit_id - 1)
          (st.sentences ++ [(Sentence.create g o.new_state_id).set_processing.1])
          none st.init_state_id)
          bad after rest aTail gScr eScr hlen' rfl
      simp only [List.map_append, List.map_cons, List.cons_append, List.append_assoc,
        hfail] at h1 h2 h3 h4 h5 h6 ⊢
      refine ⟨?_, ?_, ?_, ?_, ?_, ?_⟩
      · simp [h1]
      · simp [h2]
      · simp only [List.append_eq, List.map_append, List.map_cons, List.cons_append,
          List.append_assoc]
        rw [h3]
        simp
        omega
      · simp [h4]
      · simp [h5]
      · simp [h6]

/-- Draining a batch whose Add exchanges all succeed, followed by the goal
refresh scheduled by `forward_many`, whose own exchange returns goals:
one Add request per sentence region is sent, in order, plus exactly one Goal
request; no task is left over, nothing raises, and no failed sentence is
recorded at the end. -/
theorem run_adds_ok_goal (regions : List SentenceRegion) :
    ∀ (oks : List AddOk) (st : STM) (aTail : List AddOutcome)
      (g : Option PyValue) (gTail : List GoalOutcome)
      (eScr : List EditOutcome),
      regions.length = oks.length →
      st.failed_sentence = none →
      addCommands (st.run (regions.map Task.forward_one ++ [Task.update_goal])
          ((oks.map fun o => AddOutcome.res (Except.ok o)) ++ aTail)
          (GoalOutcome.res (Except.ok g) :: gTail) eScr).reqs
        = regions.map SentenceRegion.command
      ∧ goalCount (st.run (regions.map Task.forward_one ++ [Task.update_goal])
          ((oks.map fun o => AddOutcome.res (Except.ok o)) ++ aTail)
          (GoalOutcome.res (Except.ok g) :: gTail) eScr).reqs = 1
      ∧ (st.run (regions.map Task.forward_one ++ [Task.update_goal])
          ((oks.map fun o => AddOutcome.res (Except.ok o)) ++ aTail)
          (GoalOutcome.res (Except.ok g) :: gTail) eScr).st.sentences.length
        = st.sentences.length + regions.length
      ∧ (st.run (regions.map Task.forward_one ++ [Task.update_goal])
          ((oks.map fun o => AddOutcome.res (Except.ok o)) ++ aTail)
          (GoalOutcome.res (Except.ok g) :: gTail) eScr).st.failed_sentence = none
      ∧ (st.run (regions.map Task.forward_one ++ [Task.update_goal])
          ((oks.map fun o => AddOutcome.res (Except.ok o)) ++ aTail)
          (GoalOutcome.res (Except.ok g) :: gTail) eScr).leftover = []
      ∧ (st.run (regions.map Task.forward_one ++ [Task.update_goal])
          ((oks.map fun o => AddOutcome.res (Except.ok o)) ++ aTail)
          (GoalOutcome.res (Except.ok g) :: gTail) eScr).exc = none := by
  induction regions with
  | nil =>
    intro oks st aTail g gTail eScr hlen hfail
    cases oks with
    | cons o os => simp at hlen
    | nil => simp [STM.run, hfail]
  | cons r rs ih =>
    intro oks st aTail g gTail eScr hlen hfail
    cases oks with
    | nil => simp at hlen
    | cons o os =>
      have hlen' : rs.length = os.length := by simpa using hlen
      simp only [List.cons_append, List.map_cons, STM.run,
        sendPhase_forward_of_none r hfail]
      obtain ⟨h1, h2, h3, h4, h5, h6⟩ :=
        ih os (STM.mk (st.next_edit_id - 1)
          (st.sentences ++ [(Sentence.create r o.new_state_id).set_processing.1])
          none st.init_state_id)
          aTail g gTail eScr hlen' rfl
      simp only [hfail] at h1 h2 h3 h4 h5 h6 ⊢
      refine ⟨?_, ?_, ?_, ?_, ?_, ?_⟩
      · simp [h1]
      · simp [h2]
      · simp only [List.append_eq, List.map_append, List.map_cons, List.cons_append,
          List.append_assoc]
        rw [h3]
        simp
        omega
      · simp [h4]
      · simp [h5]
      · simp [h6]

/-! ## Claim theorems -/

mutual

/-- Decoding the encoding of any value of the claimed data model yields a
value equal to the original under Python `==`.  Union values encode through
the option converter (a union namedtuple is a 1-tuple, so the tuple-length-1
check shadows the dedicated union converters), but Python tuple equality
makes the decoded 1-tuple compare equal to the original union value. -/
theorem data_roundtrip : (v : PyValue) → inModel v = true →
    ∃ x w, _data_to_xml v = Except.ok x ∧ _data_from_xml x = Except.ok w
      ∧ pyEq w v = true
  | .unit, _ => ⟨_, _, rfl, rfl, rfl⟩
  | .bool true, _ => ⟨_, _, rfl, rfl, rfl⟩
  | .bool false, _ => ⟨_, _, rfl, rfl, rfl⟩
  | .str s, _ => by
    refine ⟨.elem "string" [] [] (xmlText s), .str s, rfl, ?_, ?_⟩
    · by_cases hs : s = "" <;> simp [_data_from_xml, xmlText, hs]
    · simp [pyEq, pyNorm, pyEqNorm]
  | .int n, _ => by
    refine ⟨.elem "int" [] [] (xmlText (pyIntStr n)), .int n, rfl, ?_, ?_⟩
    · simp [_data_from_xml, xmlText, pyIntStr_ne_empty n, pyParseInt_pyIntStr n]
    · simp [pyEq, pyNorm, pyEqNorm]
  | .stateID n, _ => by
    refine ⟨.elem "state_id" [("val", pyIntStr n)] [] none, .stateID n, rfl, ?_, ?_⟩
    · simp [_data_from_xml, List.lookup, pyParseInt_pyIntStr n]
    · simp [pyEq, pyNorm, pyEqNorm, pyEqNormList]
  | .pylist vs, h => by
    have h' : inModelList vs = true := by simpa [inModel] using h
    obtain ⟨xs, ws, h1, h2, h3⟩ := data_roundtrip_list vs h'
    refine ⟨.elem "list" [] xs none, .pylist ws, ?_, ?_, ?_⟩
    · simp [_data_to_xml, h1]
    · simp [_data_from_xml, h2]
    · simpa [pyEq, pyNorm, pyEqNorm] using h3
  | .tup [], _ => ⟨_, _, rfl, rfl, rfl⟩
  | .tup [a], h => by
    have ha : inModel a = true := by simpa [inModel, inModelList] using h
    obtain ⟨x, w, h1, h2, h3⟩ := data_roundtrip a ha
    refine ⟨.elem "option" [("val", "some")] [x] none, .tup [w], ?_, ?_, ?_⟩
    · simp [_data_to_xml, h1]
    · simp [_data_from_xml, List.lookup, h2]
    · simp only [pyEq, pyNorm, pyNormList, pyEqNorm, pyEqNormList] at h3 ⊢
      simp [h3]
  | .tup [a, b], h => by
    have hab : inModel a = true ∧ inModel b = true := by
      simpa [inModel, inModelList] using h
    obtain ⟨xa, wa, ha1, ha2, ha3⟩ := data_roundtrip a hab.1
    obtain ⟨xb, wb, hb1, hb2, hb3⟩ := data_roundtrip b hab.2
    refine ⟨.elem "pair" [] [xa, xb] none, .tup [wa, wb], ?_, ?_, ?_⟩
    · simp [_data_to_xml, ha1, hb1, except_bind_ok]
    · simp [_data_from_xml, _data_from_xml_list, ha2, hb2, except_bind_ok]
    · simp only [pyEq, pyNorm, pyNormList, pyEqNorm, pyEqNormList] at ha3 hb3 ⊢
      simp [ha3, hb3]
  | .tup (_ :: _ :: _ :: _), h => by
    simp [inModel] at h
  | .unionL v, h => by
    have hv : inModel v = true := by simpa [inModel] using h
    obtain ⟨x, w, h1, h2, h3⟩ := data_roundtrip v hv
    refine ⟨.elem "option" [("val", "some")] [x] none, .tup [w], ?_, ?_, ?_⟩
    · simp [_data_to_xml, h1]
    · simp [_data_from_xml, List.lookup, h2]
    · simp only [pyEq, pyNorm, pyNormList, pyEqNorm, pyEqNormList] at h3 ⊢
      simp [h3]
  | .unionR v, h => by
    have hv : inModel v = true := by simpa [inModel] using h
    obtain ⟨x, w, h1, h2, h3⟩ := data_roundtrip v hv
    refine ⟨.elem "option" [("val", "some")] [x] none, .tup [w], ?_, ?_, ?_⟩
    · simp [_data_to_xml, h1]
    · simp [_data_from_xml, List.lookup, h2]
    · simp only [pyEq, pyNorm, pyNormList, pyEqNorm, pyEqNormList] at h3 ⊢
      simp [h3]
  | .goals _ _ _ _, h => by simp [inModel] at h
  | .goal _ _ _, h => by simp [inModel] at h
  | .loc _ _, h => by simp [inModel] at h

theorem data_roundtrip_list : (vs : List PyValue) → inModelList vs = true →
    ∃ xs ws, _data_to_xml_list vs = Except.ok xs
      ∧ _data_from_xml_list xs = Except.ok ws
      ∧ pyEqNormList (pyNormList ws) (pyNormList vs) = true
  | [], _ => ⟨[], [], rfl, rfl, rfl⟩
  | v :: vs, h => by
    have h' : inModel v = true ∧ inModelList vs = true := by
      simpa [inModelList] using h
    obtain ⟨x, w, h1, h2, h3⟩ := data_roundtrip v h'.1
    obtain ⟨xs, ws, hl1, hl2, hl3⟩ := data_roundtrip_list vs h'.2
    refine ⟨x :: xs, w :: ws, ?_, ?_, ?_⟩
    · simp [_data_to_xml_list, h1, hl1, except_bind_ok]
    · simp [_data_from_xml_list, h2, hl2, except_bind_ok]
    · simp only [pyEq] at h3
      simp [pyNormList, pyEqNormList, h3, hl3]

end

/-- Claim C1 (confirmed): for every value of the data model handled by the
`xmlprotocol` converters (unit, bool, str, int, StateID, lists, tuples of
arity at most 2, and `UnionL`/`UnionR` around such values), decoding the
encoding succeeds and yields a value equal to the original under Python
equality.  Untagged unions travel through the option/1-tuple converter
because the tuple-length-1 check precedes the union converters, yet the
decoded 1-tuple still compares `==`-equal to the union namedtuple, since
Python namedtuples inherit tuple equality. -/
theorem claim1_codec_roundtrip (v : PyValue) (h : inModel v = true) :
    ∃ x w, _data_to_xml v = Except.ok x ∧ _data_from_xml x = Except.ok w
      ∧ pyEq w v = true :=
  data_roundtrip v h

theorem claim1_codec_roundtrip_witness :
    inModel (PyValue.unionL (PyValue.tup [PyValue.stateID 3, PyValue.str "x"])) = true
    ∧ ∃ x w,
        _data_to_xml (PyValue.unionL (PyValue.tup [PyValue.stateID 3, PyValue.str "x"]))
          = Except.ok x
        ∧ _data_from_xml x = Except.ok w
        ∧ pyEq w (PyValue.unionL (PyValue.tup [PyValue.stateID 3, PyValue.str "x"])) = true :=
  ⟨rfl, claim1_codec_roundtrip (PyValue.unionL (PyValue.tup [PyValue.stateID 3, PyValue.str "x"])) rfl⟩

/-- Claim C8 (confirmed): `Mark.__lt__` is the lexicographic order on
(line, column), and for every pair of marks exactly one of `m1 < m2`,
`m1 == m2`, `m2 < m1` holds. -/
theorem claim8_mark_lexicographic_total (m1 m2 : Mark) :
    (Mark.lt m1 m2 = true
      ↔ (m1.line < m2.line ∨ (m1.line = m2.line ∧ m1.col < m2.col)))
    ∧ ((Mark.lt m1 m2 = true ∧ m1 ≠ m2 ∧ Mark.lt m2 m1 = false)
      ∨ (Mark.lt m1 m2 = false ∧ m1 = m2 ∧ Mark.lt m2 m1 = false)
      ∨ (Mark.lt m1 m2 = false ∧ m1 ≠ m2 ∧ Mark.lt m2 m1 = true)) := by
  obtain ⟨a, b⟩ := m1
  obtain ⟨c, d⟩ := m2
  constructor
  · simp [Mark.lt]
  · simp [Mark.lt, Mark.mk.injEq]
    omega

/-- Claim C9 (confirmed): `CoqtopInstance.spawn` raises when a process has
already been spawned, leaving the instance unchanged, and succeeds exactly
from the not-yet-spawned state, storing the new process and reader. -/
theorem claim9_spawn_only_once (inst inst2 : CoqtopInstance) (args : List String)
    (p r q : Nat) (h : inst.proc = some q) (h2 : inst2.proc = none) :
    inst.spawn args p r = (inst, .error "CoqtopInstance already spawned.")
    ∧ inst2.spawn args p r = ({ proc := some p, reader := some r }, .ok ()) := by
  constructor
  · simp [CoqtopInstance.spawn, h]
  · simp [CoqtopInstance.spawn, h2]

/-- Claim C10 (confirmed): decoding a well-formed state-object feedback
element is total in the content type: whenever the content's `val` attribute
is none of the nine known kinds, `Feedback.from_xml` returns a `Feedback`
wrapping the raw markup in `AnyContent` instead of raising. -/
theorem claim10_feedback_decoding_total (attrs : List (String × String))
    (c0 c1 : Xml) (rest : List Xml) (tx : Option String) (sid : PyValue) (v : String)
    (hobj : (Xml.elem "feedback" attrs (c0 :: c1 :: rest) tx).getAttr "object"
      = some "state")
    (hsid : _data_from_xml c0 = Except.ok sid)
    (hval : c1.getAttr "val" = some v)
    (hkind : v ∉ knownFeedbackKinds) :
    Feedback.from_xml (Xml.elem "feedback" attrs (c0 :: c1 :: rest) tx)
      = Except.ok { state_id := sid, content := .anyContent c1.tostring } := by
  simp only [knownFeedbackKinds, List.mem_cons, List.not_mem_nil, or_false] at hkind
  push_neg at hkind
  obtain ⟨h1, h2, h3, h4, h5, h6, h7, h8, h9⟩ := hkind
  simp [Feedback.from_xml, Xml.tag, Xml.children, hobj, hsid, hval, except_bind_ok,
    AnyContent.from_xml, h1, h2, h3, h4, h5, h6, h7, h8, h9]

theorem claim10_feedback_decoding_total_witness :
    ((Xml.elem "feedback" [("object", "state"), ("route", "0")]
        [Xml.elem "state_id" [("val", "42")] [] none,
         Xml.elem "feedback_content" [("val", "workerstatus")] [] none] none).getAttr
           "object" = some "state")
    ∧ ("workerstatus" ∉ knownFeedbackKinds)
    ∧ Feedback.from_xml
        (Xml.elem "feedback" [("object", "state"), ("route", "0")]
          [Xml.elem "state_id" [("val", "42")] [] none,
           Xml.elem "feedback_content" [("val", "workerstatus")] [] none] none)
      = Except.ok (Feedback.mk (PyValue.stateID 42)
          (.anyContent (Xml.tostring
            (Xml.elem "feedback_content" [("val", "workerstatus")] [] none)))) :=
  ⟨rfl, by decide,
    claim10_feedback_decoding_total [("object", "state"), ("route", "0")]
      (Xml.elem "state_id" [("val", "42")] [] none)
      (Xml.elem "feedback_content" [("val", "workerstatus")] [] none)
      [] none (PyValue.stateID 42) "workerstatus" rfl rfl rfl (by decide)⟩

/-- Claim C6 (confirmed): a `processed` feedback delivered to a state whose
flag is `axiom` leaves the flag (and the sentence) unchanged; in general the
processed transition promotes the flag to `processed` exactly when the
current flag is `none` or `sent`/processing, never overriding `axiom` or
`error`. -/
theorem claim6_processed_never_downgrades (sentences : List Sentence) (sid : Int)
    (s t : Sentence) (hfind : state_id_map_get sentences sid = some s)
    (hax : s.flag = some Flag.axiomFlag) :
    FeedbackHandler.on_processed (state_id_map_get sentences sid) = (some s, [])
    ∧ ((t.set_processed.1.flag = some Flag.processed ∧ t.set_processed.1 ≠ t)
        ↔ (t.flag = none ∨ t.flag = some Flag.processing)) := by
  constructor
  · rw [hfind]
    simp [FeedbackHandler.on_processed, Sentence.set_processed, hax]
  · rcases ht : t.flag with _ | f
    · refine ⟨fun _ => Or.inl rfl, fun _ => ⟨?_, ?_⟩⟩
      · simp [Sentence.set_processed, ht]
      · intro hEq
        have hflag := congrArg Sentence.flag hEq
        rw [ht] at hflag
        simp [Sentence.set_processed, ht] at hflag
    · cases f
      case processing =>
        refine ⟨fun _ => Or.inr rfl, fun _ => ⟨?_, ?_⟩⟩
        · simp [Sentence.set_processed, ht]
        · intro hEq
          have hflag := congrArg Sentence.flag hEq
          rw [ht] at hflag
          simp [Sentence.set_processed, ht] at hflag
      case processed =>
        have hid : t.set_processed = (t, []) := by
          simp [Sentence.set_processed, ht]
        constructor
        · rintro ⟨_, hne⟩
          rw [hid] at hne
          exact absurd rfl hne
        · rintro (h | h) <;> simp [ht] at h
      case axiomFlag =>
        have hid : t.set_processed = (t, []) := by
          simp [Sentence.set_processed, ht]
        constructor
        · rintro ⟨hfl, _⟩
          rw [hid] at hfl
          rw [ht] at hfl
          simp at hfl
        · rintro (h | h) <;> simp [ht] at h
      case error =>
        have hid : t.set_processed = (t, []) := by
          simp [Sentence.set_processed, ht]
        constructor
        · rintro ⟨hfl, _⟩
          rw [hid] at hfl
          rw [ht] at hfl
          simp at hfl
        · rintro (h | h) <;> simp [ht] at h

theorem claim6_processed_never_downgrades_witness :
    (state_id_map_get
        [Sentence.mk (SentenceRegion.mk 1 (Mark.mk 1 1) (Mark.mk 1 7) "Proof.") 5
          none (some Flag.axiomFlag) 1] 5
      = some (Sentence.mk (SentenceRegion.mk 1 (Mark.mk 1 1) (Mark.mk 1 7) "Proof.") 5
          none (some Flag.axiomFlag) 1))
    ∧ (FeedbackHandler.on_processed (state_id_map_get
          [Sentence.mk (SentenceRegion.mk 1 (Mark.mk 1 1) (Mark.mk 1 7) "Proof.") 5
            none (some Flag.axiomFlag) 1] 5)
        = (some (Sentence.mk (SentenceRegion.mk 1 (Mark.mk 1 1) (Mark.mk 1 7) "Proof.") 5
            none (some Flag.axiomFlag) 1), [])
      ∧ (((Sentence.mk (SentenceRegion.mk 1 (Mark.mk 1 1) (Mark.mk 1 7) "Proof.") 6
            none none 0).set_processed.1.flag = some Flag.processed
          ∧ (Sentence.mk (SentenceRegion.mk 1 (Mark.mk 1 1) (Mark.mk 1 7) "Proof.") 6
            none none 0).set_processed.1
            ≠ Sentence.mk (SentenceRegion.mk 1 (Mark.mk 1 1) (Mark.mk 1 7) "Proof.") 6
                none none 0)
        ↔ ((Sentence.mk (SentenceRegion.mk 1 (Mark.mk 1 1) (Mark.mk 1 7) "Proof.") 6
            none none 0).flag = none
          ∨ (Sentence.mk (SentenceRegion.mk 1 (Mark.mk 1 1) (Mark.mk 1 7) "Proof.") 6
            none none 0).flag = some Flag.processing))) :=
  ⟨by decide,
    claim6_processed_never_downgrades
      [Sentence.mk (SentenceRegion.mk 1 (Mark.mk 1 1) (Mark.mk 1 7) "Proof.") 5
        none (some Flag.axiomFlag) 1] 5
      (Sentence.mk (SentenceRegion.mk 1 (Mark.mk 1 1) (Mark.mk 1 7) "Proof.") 5
        none (some Flag.axiomFlag) 1)
      (Sentence.mk (SentenceRegion.mk 1 (Mark.mk 1 1) (Mark.mk 1 7) "Proof.") 6
        none none 0)
      (by decide) rfl⟩

theorem claim9_spawn_only_once_witness :
    (CoqtopInstance.mk (some 7) (some 8)).proc = some 7
    ∧ ((CoqtopInstance.mk (some 7) (some 8)).spawn ["coqtop"] 1 2
        = (CoqtopInstance.mk (some 7) (some 8), .error "CoqtopInstance already spawned.")
      ∧ (CoqtopInstance.mk none none).spawn ["coqtop"] 1 2
        = (CoqtopInstance.mk (some 1) (some 2), .ok ())) :=
  ⟨rfl, claim9_spawn_only_once (CoqtopInstance.mk (some 7) (some 8))
    (CoqtopInstance.mk none none) ["coqtop"] 1 2 7 rfl rfl⟩

/-- Claim C2 (code bug): on a three-sentence batch whose second Add fails,
the STM does discard the remaining tasks (the third Add and the Goal refresh
are never sent, the queue is emptied) and does record the failing sentence
detached from the history with state id 0 — but it never reaches the claimed
error state.  `_forward_one` calls `sentence.set_error` with four arguments
while `Sentence.set_error` takes three, so the callback dies of a
`TypeError` right after storing `_failed_sentence`: the recorded sentence is
the bare `Sentence(sregion, 0)` with no error flag and no highlight, and no
error message is ever shown. -/
theorem claim2_add_failure_typeerror :
    addCommands outC2.reqs = [sregA.command, sregB.command]
    ∧ goalCount outC2.reqs = 0
    ∧ outC2.leftover = []
    ∧ outC2.st.sentences.length = 1
    ∧ outC2.st.failed_sentence = some (Sentence.create sregB 0)
    ∧ (Sentence.create sregB 0).flag = none
    ∧ (Sentence.create sregB 0).hlid = none
    ∧ outC2.exc = some typeErrSetError :=
  ⟨rfl, rfl, rfl, rfl, rfl, rfl, rfl, rfl⟩

/-- Claim C3 counterexample: after submitting `sregB` (which becomes a live
state of the history), submitting the very same sentence again issues a
second Add request with the same command — `_forward_one` performs no
duplicate check, so the second submission is not a no-op as claimed. -/
theorem claim3_counterexample :
    outDup1.st.sentences.map Sentence.region = [sregB]
    ∧ addCommands outDup1.reqs = [sregB.command]
    ∧ addCommands outDup2.reqs = [sregB.command] :=
  ⟨rfl, rfl, rfl⟩

/-- Claim C3 (corrected): the STM never skips a duplicate sentence.  Starting
from a state with no failed sentence recorded, every submission of a
sentence region — including a sentence already present as a live state —
issues exactly one Add wire request for it, so two successive submissions of
the same sentence issue two Add requests in total. -/
theorem claim3_duplicate_add_not_skipped (S : SentenceRegion) (st : STM)
    (o1 o2 : AddOk) (aT1 aT2 : List AddOutcome)
    (g1 g2 : Option PyValue) (gT1 gT2 : List GoalOutcome)
    (eScr1 eScr2 : List EditOutcome) (out1 out2 : RunOut)
    (hfail : st.failed_sentence = none)
    (hout1 : out1 = st.forward_one_call S
        (AddOutcome.res (Except.ok o1) :: aT1)
        (GoalOutcome.res (Except.ok g1) :: gT1) eScr1)
    (hout2 : out2 = out1.st.forward_one_call S
        (AddOutcome.res (Except.ok o2) :: aT2)
        (GoalOutcome.res (Except.ok g2) :: gT2) eScr2) :
    addCommands out1.reqs = [S.command] ∧ addCommands out2.reqs = [S.command] := by
  subst hout2
  subst hout1
  have hfail1 : (st.forward_one_call S (AddOutcome.res (Except.ok o1) :: aT1)
      (GoalOutcome.res (Except.ok g1) :: gT1) eScr1).st.failed_sentence = none := by
    simpa [STM.forward_one_call] using
      (run_adds_ok_goal [S] [o1] st aT1 g1 gT1 eScr1 rfl hfail).2.2.2.1
  constructor
  · simpa [STM.forward_one_call] using
      (run_adds_ok_goal [S] [o1] st aT1 g1 gT1 eScr1 rfl hfail).1
  · simpa [STM.forward_one_call] using
      (run_adds_ok_goal [S] [o2]
        ((st.forward_one_call S (AddOutcome.res (Except.ok o1) :: aT1)
          (GoalOutcome.res (Except.ok g1) :: gT1) eScr1).st) aT2 g2 gT2 eScr2 rfl
        hfail1).1

theorem claim3_duplicate_add_not_skipped_witness :
    stm0.failed_sentence = none
    ∧ (outDup1 = stm0.forward_one_call sregB
        (AddOutcome.res (Except.ok addOk2) :: []) (GoalOutcome.res (Except.ok none) :: []) [])
    ∧ (addCommands outDup1.reqs = [sregB.command]
      ∧ addCommands outDup2.reqs = [sregB.command]) :=
  ⟨rfl, rfl, claim3_duplicate_add_not_skipped sregB stm0 addOk2 (AddOk.mk 3 "" 3)
    [] [] none none [] [] [] [] outDup1 outDup2 rfl rfl rfl⟩

/-- Claim C4 counterexample: with two live states and an Edit_at exchange
failing with a value naming rewind point 7, the STM sends exactly one
Edit_at request (to the locally computed target, state 4) and raises a
RuntimeError instead of retrying at the suggested state id — contradicting
the claimed retry-and-never-fatal behaviour.  (The Goal request that follows
is the already queued goal-refresh task going out before the system wedges;
no second Edit_at is ever sent.) -/
theorem claim4_counterexample :
    editAtTargets outEdit.reqs = [some 4]
    ∧ outEdit.reqs = [Req.edit_at (some 4), Req.goal]
    ∧ outEdit.exc.isSome = true :=
  ⟨rfl, rfl, rfl⟩

/-- Claim C4 (corrected): when an Edit_at exchange returns a failure value,
`_backward_before_index` raises `RuntimeError(Edit_at should not fail: ...)`
instead of retrying: exactly one Edit_at request is sent (to the locally
computed target), the history is left unchanged, and the exception kills the
reader thread — the already scheduled goal-refresh task still sends its Goal
request thanks to `finally_call(done)`, then blocks forever, and the tasks
after it never leave the queue. -/
theorem claim4_edit_at_failure_raises (st : STM) (i : Nat) (e : ErrorValue)
    (rest : List Task) (aScr : List AddOutcome) (gScr : List GoalOutcome)
    (eTail : List EditOutcome) (out : RunOut) (sid : Option Int)
    (hsid : sidResolve st i = Except.ok sid)
    (hfail : st.failed_sentence = none)
    (hout : out = st.run
        (Task.backward_before_index i :: Task.update_goal :: rest) aScr gScr
        (EditOutcome.res (Except.error e) :: eTail)) :
    out.exc = some ("Edit_at should not fail: " ++ e.pyrepr)
    ∧ out.reqs = [Req.edit_at sid, Req.goal]
    ∧ editAtTargets out.reqs = [sid]
    ∧ out.st.sentences = st.sentences
    ∧ out.leftover = rest := by
  subst hout
  simp only [STM.run, STM.sendPhase, hsid, clear_failed_of_none hfail]
  simp [afterCallbackRaise, STM.sendPhase, editAtTargets]

theorem claim4_edit_at_failure_raises_witness :
    sidResolve stmTwo 1 = Except.ok (some 4)
    ∧ stmTwo.failed_sentence = none
    ∧ (outEdit.exc = some ("Edit_at should not fail: " ++ errSuggest.pyrepr)
      ∧ outEdit.reqs = [Req.edit_at (some 4), Req.goal]
      ∧ editAtTargets outEdit.reqs = [some 4]
      ∧ outEdit.st.sentences = stmTwo.sentences
      ∧ outEdit.leftover = []) :=
  ⟨rfl, rfl, claim4_edit_at_failure_raises stmTwo 1 errSuggest []
    [] [] [] outEdit (some 4) rfl rfl rfl⟩

/-- Claim C5 (code bug): when the connection is lost during a two-sentence
batch (after one successful Add), the on-lost callback does discard the
pending tasks, but it never performs the claimed cleanup: its loop calls
`sentence.unhighlight()` without the required `handle_action` argument, so
it dies of a `TypeError` at the first live sentence.  The history keeps its
sentence, nothing is unhighlighted, and `ui_cmds.connection_lost()` is never
called — the claimed notification fires zero times whenever the history is
non-empty. -/
theorem claim5_connection_lost_typeerror :
    outLost.st.sentences.length = 1
    ∧ connectionLostCount outLost.ui = 0
    ∧ unhlCount outLost.ui = 0
    ∧ outLost.leftover = []
    ∧ outLost.exc = some typeErrUnhighlight :=
  ⟨rfl, rfl, rfl, rfl, rfl⟩

/-- Claim C7 counterexample: a batch whose (single) Add fails issues no Goal
request at all — the scheduled goal-refresh task is discarded together with
the rest of the batch — contradicting the claimed exactly-one-Goal-call. -/
theorem claim7_counterexample :
    goalCount outFailOne.reqs = 0 ∧ goalCount outFailOne.reqs ≠ 1 :=
  ⟨rfl, by decide⟩

/-- Claim C7 (corrected): exactly one Goal request follows a batch whose Add
exchanges all succeed (and whose goal exchange returns goals); but when the
batch stops at an Add failure, the goal-refresh task is discarded along with
the remaining Add tasks and no Goal request is issued.  (There is no
up-front error guard in this source revision: no batch is rejected before
sending.)  Both runs start with no failed sentence recorded. -/
theorem claim7_goal_refresh_after_batch (regions : List SentenceRegion)
    (oks : List AddOk) (st : STM) (aTail : List AddOutcome)
    (g : Option PyValue) (gTail : List GoalOutcome)
    (eScr : List EditOutcome) (good : List SentenceRegion) (bad : SentenceRegion)
    (after : List SentenceRegion) (oks2 : List AddOk) (e : ErrorValue) (st2 : STM)
    (aTail2 : List AddOutcome) (gScr2 : List GoalOutcome) (eScr2 : List EditOutcome)
    (outOk outFail : RunOut)
    (hlen : regions.length = oks.length)
    (hfail : st.failed_sentence = none)
    (houtOk : outOk = st.forward_many regions
        ((oks.map fun o => AddOutcome.res (Except.ok o)) ++ aTail)
        (GoalOutcome.res (Except.ok g) :: gTail) eScr)
    (hlen2 : good.length = oks2.length)
    (hfail2 : st2.failed_sentence = none)
    (houtFail : outFail = st2.forward_many (good ++ bad :: after)
        ((oks2.map fun o => AddOutcome.res (Except.ok o))
          ++ AddOutcome.res (Except.error e) :: aTail2) gScr2 eScr2) :
    goalCount outOk.reqs = 1 ∧ goalCount outFail.reqs = 0 := by
  subst houtOk
  subst houtFail
  constructor
  · simpa [STM.forward_many] using
      (run_adds_ok_goal regions oks st aTail g gTail eScr hlen hfail).2.1
  · simpa [STM.forward_many] using
      (run_adds_fail e good oks2 st2 bad after [Task.update_goal] aTail2
        gScr2 eScr2 hlen2 hfail2).2.1

theorem claim7_goal_refresh_after_batch_witness :
    ([sregA].length = [addOk2].length)
    ∧ stm0.failed_sentence = none
    ∧ ([sregA].length = [addOk2].length)
    ∧ (goalCount outOkOne.reqs = 1 ∧ goalCount outC2.reqs = 0) :=
  ⟨rfl, rfl, rfl, claim7_goal_refresh_after_batch [sregA] [addOk2] stm0 []
    none [] [] [sregA] sregB [sregC] [addOk2] errBoom stm0 [] [] []
    outOkOne outC2 rfl rfl rfl rfl rfl rfl⟩

end Coqide
